import Mathlib

/-!
Verification development for the `1001-books` geonames-enrichment pipeline.

The Python sources under `src/geonames_enrichment` are shallowly embedded:
pure helper functions become Lean functions, HTTP calls become oracle
functions passed as parameters, pandas `pd.NA` becomes `Option.none`, and
a dataframe row under enrichment becomes an explicit `Record` structure
transformed by one function per pipeline stage.
-/

namespace Books

/-! ## String normalization (`GndClient._normalize_input`)

The source lowercases, applies Unicode NFD, removes combining marks
(category `Mn`), collapses `"X. Y."` initials to `"X.Y."` with the regex
`(\w\.)\s(\w\.)` -> `\1\2`, deletes `!` and `?`, and trims whitespace.
The Unicode-dependent pieces (`str.lower`, `unicodedata.normalize("NFD")`,
`unicodedata.category == "Mn"`) are parameters of a `UnicodeModel`; the
concrete instance `asciiUnicode` models their behaviour on the ASCII
subset, where NFD is the identity and no character is a combining mark. -/

/-- Model of the character-level Unicode operations used by
`_normalize_input`: per-character lowercasing, canonical (NFD)
decomposition, and the combining-mark (`Mn` category) test. -/
structure UnicodeModel where
  lowerChar : Char → Char
  nfdChar : Char → List Char
  isMn : Char → Bool

/-- Lowercase a character, modelling `str.lower` on the ASCII range. -/
def asciiLowerChar (c : Char) : Char :=
  if 65 ≤ c.toNat ∧ c.toNat ≤ 90 then Char.ofNat (c.toNat + 32) else c

/-- The `UnicodeModel` restricted to ASCII text: NFD decomposition is the
identity and no character has category `Mn`. -/
def asciiUnicode : UnicodeModel :=
  { lowerChar := asciiLowerChar, nfdChar := fun c => [c], isMn := fun _ => false }

/-- Model of the regex word-character class `\w` on ASCII. -/
def isWordChar (c : Char) : Bool :=
  c.isAlphanum || c == '_'

/-- Model of the regex whitespace class `\s` (and of the characters removed
by `str.strip`). -/
def isPySpace (c : Char) : Bool :=
  c.isWhitespace

/-- One left-to-right, non-overlapping pass of
`re.sub(r"(\w\.)\s(\w\.)", r"\1\2", data)`: wherever a word character,
a dot, one whitespace character, a word character and a dot occur in
sequence, the whitespace character is deleted and scanning resumes after
the match. -/
def collapseInitials : List Char → List Char
  | a :: '.' :: s :: b :: '.' :: rest =>
      if isWordChar a ∧ isPySpace s ∧ isWordChar b then
        a :: '.' :: b :: '.' :: collapseInitials rest
      else
        a :: collapseInitials ('.' :: s :: b :: '.' :: rest)
  | c :: rest => c :: collapseInitials rest
  | [] => []

/-- Whether the list still contains a match of the initials regex
`(\w\.)\s(\w\.)`. -/
def hasInitialsPattern : List Char → Bool
  | a :: '.' :: s :: b :: '.' :: rest =>
      (isWordChar a && isPySpace s && isWordChar b)
        || hasInitialsPattern ('.' :: s :: b :: '.' :: rest)
  | _ :: rest => hasInitialsPattern rest
  | [] => false

/-- Model of `re.sub(r"[!?]", "", data)`. -/
def removeBangQmark (l : List Char) : List Char :=
  l.filter (fun c => !(c == '!' || c == '?'))

/-- Model of `str.strip()`: remove whitespace from both ends. -/
def pyStripChars (l : List Char) : List Char :=
  (l.dropWhile isPySpace).rdropWhile isPySpace

/-- `str.strip()` on strings. -/
def pyStrip (s : String) : String :=
  String.mk (pyStripChars s.data)

/-- Character-level body of `GndClient._normalize_input`: lowercase, NFD
decomposition, combining-mark removal, initials collapse, `!`/`?` removal,
strip. -/
def normalizeChars (U : UnicodeModel) (l : List Char) : List Char :=
  pyStripChars (removeBangQmark (collapseInitials
    (((l.map U.lowerChar).flatMap U.nfdChar).filter (fun c => !U.isMn c))))

/-- `GndClient._normalize_input`: `pd.NA` input yields `""`, otherwise the
string is normalized character by character. -/
def normalizeInput (U : UnicodeModel) (data : Option String) : String :=
  match data with
  | none => ""
  | some s => String.mk (normalizeChars U s.data)

/-! ## lobid-gnd client (`GndClient`)

The JSON result items of the authority search API are embedded as
structures; the two HTTP endpoints the client consults (title search and
author entity detail) become oracle functions in a `GndEnv`, standing for
`HttpClient.fetch_page` plus `.json()` parsing. `None` from an oracle is
the failure marker returned by `fetch_page`. -/

/-- One element of a result item's `sameAs` list. -/
structure SameAsEntry where
  id : String
deriving DecidableEq

/-- The dictionary at `firstAuthor[0]`: an author reference with optional
`label` and `id` fields. -/
structure AuthorRef where
  label : Option String
  id : Option String
deriving DecidableEq

/-- A geographic area code entry with `id` and `label`, one element of a
result item's `geographicAreaCode` list. -/
structure GeoAreaCode where
  id : String
  label : String
deriving DecidableEq

/-- One result item (`member` element) of the lobid-gnd search response. -/
structure GndItem where
  type : List String
  sameAs : List SameAsEntry
  preferredName : Option String
  variantName : List String
  firstAuthor : Option (List AuthorRef)
  geographicAreaCode : List GeoAreaCode
deriving DecidableEq

/-- The lobid-gnd search response: `totalItems` and the `member` list. -/
structure GndResponse where
  totalItems : Nat
  member : List GndItem
deriving DecidableEq

/-- One element of `variantNameEntityForThePerson` in the author detail
response, with the string-or-list fields already coerced to lists as the
source does. -/
structure NameVariant where
  forename : List String
  surname : List String
  personalName : List String

/-- The author entity-detail response body. -/
structure AuthorMeta where
  variantNameEntityForThePerson : List NameVariant

/-- Oracles standing for the two lobid-gnd endpoints reached through
`HttpClient.fetch_page`; `none` is the transport failure marker. -/
structure GndEnv where
  searchData : String → Option GndResponse
  authorData : String → Option AuthorMeta

/-- The client's `excluded_types` set. -/
def excludedTypes : List String :=
  ["Person", "DifferentiatedPerson", "CorporateBody", "ConferenceOrEvent", "MusicalWork"]

/-- URL built by `get_gnd_areacode` for a title search. -/
def mkSearchUrl (baseUrl title : String) (nPages : Nat) : String :=
  baseUrl ++ "search?q=" ++ title ++ "&type=Titel&from=0&size=" ++ toString nPages
    ++ "&format=json"

/-- Whether `needle` occurs as a contiguous run inside `hay`, modelling
the Python substring test `needle in hay`. -/
def containsSub (needle : List Char) : List Char → Bool
  | [] => needle.isEmpty
  | c :: t => needle.isPrefixOf (c :: t) || containsSub needle t

/-- Model of `str.split(sep)` for a one-character separator: the list of
(possibly empty) chunks between occurrences of `sep`. -/
def splitOnChar (sep : Char) : List Char → List (List Char)
  | [] => [[]]
  | c :: rest =>
      if c = sep then [] :: splitOnChar sep rest
      else
        match splitOnChar sep rest with
        | [] => [[c]]
        | g :: gs => (c :: g) :: gs

/-- The last `/`-separated segment of a string, modelling
`s.split("/")[-1]`. -/
def lastSegment (s : String) : String :=
  String.mk ((splitOnChar '/' s.data).getLastD [])

/-- `GndClient._extract_wikidata_id`: the first `sameAs` id containing
`wikidata.org`, reduced to its last `/`-separated segment. -/
def extractWikidataId : List SameAsEntry → Option String
  | [] => none
  | e :: rest =>
      if containsSub ("wikidata.org".data) e.id.data then
        some (lastSegment e.id)
      else extractWikidataId rest

/-- `GndClient._extract_geocode`: the first entry of `geographicAreaCode`
if the list is non-empty (Python truthiness), else the absent pair. -/
def extractGeocode (item : GndItem) : Option String × Option String :=
  match item.geographicAreaCode with
  | [] => (none, none)
  | g :: _ => (some g.id, some g.label)

/-- `GndClient._fetch_title_variants`: variant titles plus the preferred
title, each normalized. -/
def fetchTitleVariants (U : UnicodeModel) (item : GndItem) : List String :=
  (item.variantName.map some ++ [item.preferredName]).map (normalizeInput U)

/-- Full-name formatting inside `GndClient._fetch_author_variants`:
`"surname, forename"` when both parts exist, else the concatenation. -/
def formatFullName (v : NameVariant) : String :=
  let forenames := v.forename ++ v.personalName
  if v.surname ≠ [] ∧ forenames ≠ [] then
    String.intercalate " " v.surname ++ ", " ++ String.intercalate " " forenames
  else
    String.intercalate " " (forenames ++ v.surname)

/-- `GndClient._fetch_author_variants`: fetch the author detail page and
normalize every reconstructed variant name; a transport failure yields the
empty list. -/
def fetchAuthorVariants (U : UnicodeModel) (env : GndEnv) (baseUrl authorId : String) :
    List String :=
  match env.authorData (baseUrl ++ authorId ++ ".json") with
  | none => []
  | some meta =>
      (meta.variantNameEntityForThePerson.map formatFullName).map
        (fun n => normalizeInput U (some n))

/-- `GndClient._validate_gnd_result`: reject excluded types; accept on an
exact Wikidata-id cross-reference match; otherwise require the normalized
title among the item's title variants and then a first-author name match,
directly or through the author's fetched variant names. -/
def validateGndResult (U : UnicodeModel) (env : GndEnv) (baseUrl : String)
    (item : GndItem) (workWikidataId : Option String) (title : String)
    (author : Option String) : Bool :=
  if item.type.any (fun t => excludedTypes.contains t) then false
  else
    let wikidataId := extractWikidataId item.sameAs
    if (match wikidataId, workWikidataId with
        | some w, some ww => w == ww
        | _, _ => false) then true
    else
      let allTitles := fetchTitleVariants U item
      if ¬ allTitles.contains title then false
      else
        match item.firstAuthor with
        | none => false
        | some refs =>
          match refs.head? with
          | none => false
          | some fa =>
            if normalizeInput U fa.label == normalizeInput U author then true
            else
              match fa.id with
              | none => false
              | some aid =>
                let allNames :=
                  fetchAuthorVariants U env baseUrl (lastSegment aid)
                if allNames.contains (normalizeInput U author) then true
                else false

/-- The per-title loop of `GndClient.get_gnd_areacode`: skip absent
titles, abort the whole attempt when the search fetch fails (`break`),
try the next title on zero results or when no result item validates, and
return the first validated item's first coded area otherwise. -/
def gndLoop (U : UnicodeModel) (env : GndEnv) (baseUrl : String) (nPages : Nat)
    (author : Option String) (workWikidataId : Option String) :
    List (Option String) → Option String × Option String × Option String
  | [] => (none, none, some "No GND areacode")
  | none :: rest => gndLoop U env baseUrl nPages author workWikidataId rest
  | some t :: rest =>
      let title := normalizeInput U (some t)
      match env.searchData (mkSearchUrl baseUrl title nPages) with
      | none => (none, none, some "No GND areacode")
      | some resp =>
          if resp.totalItems = 0 then
            gndLoop U env baseUrl nPages author workWikidataId rest
          else
            match resp.member.find?
                (fun item => validateGndResult U env baseUrl item workWikidataId title author) with
            | some item =>
                let g := extractGeocode item
                (g.1, g.2, none)
            | none => gndLoop U env baseUrl nPages author workWikidataId rest

/-- `GndClient.get_gnd_areacode` on one record: the candidate titles of
the requested columns are tried in order by `gndLoop`. -/
def getGndAreacode (U : UnicodeModel) (env : GndEnv) (baseUrl : String) (nPages : Nat)
    (author : Option String) (workWikidataId : Option String)
    (titles : List (Option String)) : Option String × Option String × Option String :=
  gndLoop U env baseUrl nPages author workWikidataId titles

/-! ## Wikidata client (`WikidataClient`)

`pywikibot` entity access becomes an oracle `fetchItem` returning the
(redirect-resolved) entity. A claim whose target is the explicit
"unknown value" sentinel has `target = none`, matching
`claim.getTarget() is None` in the source. -/

/-- The target entity of a Wikidata claim, exposing its label map. -/
structure WdTarget where
  labels : List (String × String)
deriving DecidableEq

/-- One Wikidata claim; `target = none` models the "unknown value"
sentinel for which `getTarget()` returns `None`. -/
structure WdClaim where
  target : Option WdTarget
deriving DecidableEq

/-- A fetched Wikidata entity: claims per property, labels and aliases
per language. -/
structure WdEntity where
  claims : List (String × List WdClaim)
  labels : List (String × String)
  aliases : List (String × List String)
deriving DecidableEq

/-- The claim-scanning loop of `get_wikidata_property`: walk the claim
list accumulating each target's English label, returning `none` (the
early `return pd.NA`) as soon as a target is the unknown-value sentinel. -/
def collectCountries : List WdClaim → Option (List (Option String))
  | [] => some []
  | c :: rest =>
      match c.target with
      | none => none
      | some tgt => (collectCountries rest).map (fun l => tgt.labels.lookup "en" :: l)

/-- `WikidataClient.get_wikidata_property`: absent Q-number yields absent;
otherwise the first accumulated English label of the property's claims,
absent when the property is missing, its claim list is empty, or some
claim target is the unknown-value sentinel. -/
def getWikidataProperty (fetchItem : String → WdEntity) (pNumber : String)
    (qNumber : Option String) : Option String :=
  match qNumber with
  | none => none
  | some q =>
      let item := fetchItem q
      match item.claims.lookup pNumber with
      | none => none
      | some claimList =>
          match collectCountries claimList with
          | none => none
          | some [] => none
          | some (c :: _) => c

/-- `WikidataClient.get_wikidata_labels`: the German label and the
flattened aliases of the entity, with the empty alias union replaced by
the absent marker. -/
def getWikidataLabels (fetchItem : String → WdEntity) (qNumber : Option String) :
    Option String × Option (List String) :=
  match qNumber with
  | none => (none, none)
  | some q =>
      let item := fetchItem q
      let germanLabel := item.labels.lookup "de"
      let aliases := item.aliases.flatMap (fun p => p.2)
      (germanLabel, if aliases.isEmpty then none else some aliases)

/-! ## GeoNames client (`GeoNamesClient`)

The XML response is embedded as a structure holding the `status` element's
attributes (if the element exists) and the `name`/`lat`/`lng` texts; the
transport is again an oracle returning `none` on failure, and a fetched
body that `ET.fromstring` cannot parse is a `GeoContent` with no parsed
document. The exceptional outcomes — the deliberately raised
`GeoNamesAPIError`, the uncaught `ValueError` from `float()` on a
non-numeric coordinate text, and the uncaught XML `ParseError` — are
rendered as the error side of `Except` via `GeoRunError`. -/

/-- The parsed GeoNames XML body: attributes of the `status` element when
present, and the optional `name`, `lat` and `lng` element texts. -/
structure GeoXmlDoc where
  statusAttrib : Option (List (String × String))
  name : Option String
  lat : Option String
  lng : Option String
deriving DecidableEq

/-- The distinct error raised for an API-reported error status, carrying
the upstream message and the formatted message with the rate-limit hint. -/
structure GeoNamesAPIError where
  upstream : String
  message : String
deriving DecidableEq

/-- The message formatting in `GeoNamesAPIError.__init__`. -/
def mkGeoNamesErrorMessage (m : String) : String :=
  "GeoNames API error: " ++ m ++
    ". \n Try setting the rate limit for GeoNamesClient to \x271000/hour\x27."

/-- URL built by `GeoNamesClient._fetch_geonames_page`. -/
def mkGeonamesUrl (baseUrl geonameId username : String) : String :=
  baseUrl ++ "?geonameId=" ++ geonameId ++ "&username=" ++ username

/-- The check `status_element is not None and "message" in
status_element.attrib`, yielding the message attribute when both hold. -/
def statusMessageOf (xml : GeoXmlDoc) : Option String :=
  match xml.statusAttrib with
  | some attrs => attrs.lookup "message"
  | none => none

/-- One successful HTTP fetch of the GeoNames endpoint: the XML document
when `ET.fromstring(response.content)` parses, `none` when it raises
`ParseError` (a body that is not well-formed XML). -/
structure GeoContent where
  parsed : Option GeoXmlDoc
deriving DecidableEq

/-- The exceptions that can escape `get_geonames_data` and abort the run:
the deliberately raised `GeoNamesAPIError`, the uncaught `ValueError`
from `float()` on a non-numeric coordinate text (carrying that text),
and the uncaught XML `ParseError`. -/
inductive GeoRunError where
  | apiError (e : GeoNamesAPIError)
  | valueError (text : String)
  | parseError
deriving DecidableEq

/-- Whether a character list is a non-empty run of ASCII digits. -/
def isDigitRun (l : List Char) : Bool :=
  !l.isEmpty && l.all Char.isDigit

/-- Strip one leading `+` or `-` sign. -/
def splitSign : List Char → List Char
  | '+' :: rest => rest
  | '-' :: rest => rest
  | l => l

/-- The decimal mantissa forms accepted by `float()`: `digits`,
`digits.`, `digits.digits` or `.digits`. -/
def isMantissa (l : List Char) : Bool :=
  match splitOnChar '.' l with
  | [ip] => isDigitRun ip
  | [ip, fp] =>
      ip.all Char.isDigit && fp.all Char.isDigit && (!ip.isEmpty || !fp.isEmpty)
  | _ => false

/-- Model of the strings Python `float()` accepts without raising
`ValueError`: optional surrounding whitespace, an optional sign, then a
decimal mantissa with an optional `e`/`E` exponent, or the
case-insensitive `inf`/`infinity`/`nan` forms. Digit-group underscores
and non-ASCII digits/whitespace are outside the model's ASCII scope. -/
def isPyFloatChars (l0 : List Char) : Bool :=
  let l1 := (splitSign (pyStripChars l0)).map asciiLowerChar
  if l1 = "inf".data || l1 = "infinity".data || l1 = "nan".data then true
  else
    match splitOnChar 'e' l1 with
    | [m] => isMantissa m
    | [m, ex] => isMantissa m && isDigitRun (splitSign ex)
    | _ => false

/-- `isPyFloatChars` on strings: `float(s)` succeeds exactly when this
holds. -/
def isPyFloatString (s : String) : Bool :=
  isPyFloatChars s.data

/-- `GeoNamesClient.get_geonames_data`: the absent pair on transport
failure; an uncaught `ParseError` on a body that is not well-formed XML;
a raised `GeoNamesAPIError` when the response's `status` element carries
a `message` attribute; the absent pair when `lat` or `lng` is missing;
otherwise `float(latitude), float(longitude)` — an uncaught `ValueError`
when a present coordinate text does not convert (latitude converted
first), else the pair of coordinate texts whose conversion succeeded
(the numeric float values themselves are not modelled). -/
def getGeonamesData (fetch : String → Option GeoContent) (username baseUrl : String)
    (geonameId : String) : Except GeoRunError (Option String × Option String) :=
  match fetch (mkGeonamesUrl baseUrl geonameId username) with
  | none => .ok (none, none)
  | some content =>
      match content.parsed with
      | none => .error .parseError
      | some xml =>
          match statusMessageOf xml with
          | some m => .error (.apiError ⟨m, mkGeoNamesErrorMessage m⟩)
          | none =>
              match xml.lat, xml.lng with
              | some la, some ln =>
                  if isPyFloatString la then
                    if isPyFloatString ln then .ok (some la, some ln)
                    else .error (.valueError ln)
                  else .error (.valueError la)
              | _, _ => .ok (none, none)

/-! ## HTTP transport (`http_client.py`)

`HttpClient._setup_session` configures `urllib3.util.Retry` with
`total=5, connect=2, read=2, status_forcelist=[500, 502, 503, 504]` and
`backoff_factor=0.1`. The network is embedded as a list of per-attempt
outcomes consumed in order; the retry machinery of the session is the
function `sessionGet`, which decrements the relevant budgets on each
retryable failure and gives up (raising inside `session.get`, caught by
`fetch_page`) once a budget is exhausted. -/

/-- The outcome of one low-level HTTP attempt: a connection error, a read
timeout, or a response with a status code and body. -/
inductive HttpOutcome where
  | connError
  | readTimeout
  | status (code : Nat) (body : String)

/-- The remaining retry allowances of a `urllib3` `Retry` object. -/
structure RetryBudget where
  total : Int
  connect : Int
  read : Int

/-- The `status_forcelist` of `_setup_session`. -/
def statusForcelist : List Nat := [500, 502, 503, 504]

/-- The budgets configured in `_setup_session`:
`total=5, connect=2, read=2`. -/
def initialRetryBudget : RetryBudget := ⟨5, 2, 2⟩

/-- A `Retry` object is exhausted once any allowance drops below zero. -/
def budgetExhausted (b : RetryBudget) : Bool :=
  b.total < 0 || b.connect < 0 || b.read < 0

/-- The backoff delay before retry number `n` (0-based), with the
configured `backoff_factor=0.1` and factor-of-two growth. -/
def backoffDelay (n : Nat) : ℚ := (1 / 10) * 2 ^ n

/-- What `session.get` produces: a response that reached the caller, or a
raised retry/connection error after the budget was exhausted. -/
inductive SessionResult where
  | response (code : Nat) (body : String)
  | failure
deriving DecidableEq

/-- The retry loop inside `session.get`: connection errors and read
timeouts decrement their own budget and the total; statuses in the
forcelist decrement the total; any other status is returned as the
response. Exhausting a budget raises, which `fetch_page` later catches. -/
def sessionGet (b : RetryBudget) : List HttpOutcome → SessionResult
  | [] => .failure
  | .connError :: rest =>
      let b2 : RetryBudget := ⟨b.total - 1, b.connect - 1, b.read⟩
      if budgetExhausted b2 then .failure else sessionGet b2 rest
  | .readTimeout :: rest =>
      let b2 : RetryBudget := ⟨b.total - 1, b.connect, b.read - 1⟩
      if budgetExhausted b2 then .failure else sessionGet b2 rest
  | .status code body :: rest =>
      if code ∈ statusForcelist then
        let b2 : RetryBudget := ⟨b.total - 1, b.connect, b.read⟩
        if budgetExhausted b2 then .failure else sessionGet b2 rest
      else .response code body

/-- `HttpClient.fetch_page`: `session.get` followed by
`raise_for_status`; every raised `RetryError` or other request exception
(including HTTP errors for 4xx/5xx statuses) is caught and turned into
the failure marker `none`. -/
def fetchPage (outcomes : List HttpOutcome) : Option String :=
  match sessionGet initialRetryBudget outcomes with
  | .failure => none
  | .response code body => if 400 ≤ code then none else some body

/-! ## Rate limiter (`rate_limited` decorator)

The `limits` `MovingWindowRateLimiter` over `MemoryStorage` keeps the
timestamps of granted hits; `hit` prunes expired entries and records the
call time when fewer than `N` live entries remain, and
`get_window_stats(...).reset_time` is the oldest live entry plus the
window length. The decorator sleeps for `reset_time - time.time()` when
`hit` fails and then performs the request without re-checking. Time is
modelled as an explicit rational-valued clock. -/

/-- The timestamps still inside the moving window at time `now`. -/
def liveEntries (W now : ℚ) (entries : List ℚ) : List ℚ :=
  entries.filter (fun t => now - W < t)

/-- `limiter.hit`: prune expired entries; if fewer than `N` remain,
record the call and grant it, else deny. -/
def limiterHit (N : Nat) (W now : ℚ) (entries : List ℚ) : Bool × List ℚ :=
  let live := liveEntries W now entries
  if live.length < N then (true, live ++ [now]) else (false, live)

/-- `get_window_stats(...).reset_time`: the oldest live entry plus the
window length (`now + W` on an empty window). -/
def resetTime (W now : ℚ) (entries : List ℚ) : ℚ :=
  match liveEntries W now entries with
  | [] => now + W
  | t :: _ => t + W

/-- The body of the `rate_limited` wrapper for one call at time `now`:
the slept duration (zero when the hit is granted,
`reset_time - time.time()` when it is denied) and the new limiter state.
The wrapped request is performed afterwards in both cases. -/
def rateLimitedCall (N : Nat) (W : ℚ) (entries : List ℚ) (now : ℚ) :
    ℚ × List ℚ :=
  match limiterHit N W now entries with
  | (true, entries2) => (0, entries2)
  | (false, entries2) => (resetTime W now entries2 - now, entries2)

/-- A sequence of rate-limited calls at the given times: the list of
slept durations (one entry per performed request) and the final limiter
state. -/
def runCalls (N : Nat) (W : ℚ) : List ℚ → List ℚ → List ℚ × List ℚ
  | entries, [] => ([], entries)
  | entries, now :: rest =>
      let step := rateLimitedCall N W entries now
      let tail := runCalls N W step.2 rest
      (step.1 :: tail.1, tail.2)

/-! ## Area-code mapping (`data_mapping.py`) -/

/-- `match_arealabel`: scan the arealabel dictionary in order and return
the area code of the first label equal to the (non-absent) P495 value. -/
def matchArealabel (pValue : Option String) : List (String × String) → Option String
  | [] => none
  | (arealabel, areacode) :: rest =>
      if pValue = some arealabel then some areacode
      else matchArealabel pValue rest

/-! ## Enrichment pipeline (`enrich_with_geolocation`)

One dataframe row becomes a `Record`; each dataframe-wide operation of
`enrich_with_geolocation` becomes one stage function on records. The
results of the external client calls for this record (`get_gnd_areacode`
on the two title-column pairs, `get_wikidata_labels`,
`get_wikidata_property` for P495 and P19, and `get_geonames_data`) enter
as the fields of `EnrichInputs`, and the two lookup dictionaries built by
`wikidata_to_gnd` / `gnd_to_geonames` as association lists. Stages that
the source applies only to `remaining_rows` (a `df[...isna()]` filter)
guard on the corresponding field being absent. -/

/-- The enrichment columns of one dataframe row; `none` is `pd.NA`. -/
structure Record where
  areacode : Option String
  arealabel : Option String
  noteField : Option String
  germanTitle : Option String
  aliases : Option (List String)
  p495 : Option String
  p19 : Option String
  geonamesId : Option String
  gndMapping : Option String
  latitude : Option String
  longitude : Option String
deriving DecidableEq

/-- A row right after the empty enrichment columns are added. -/
def emptyRecord : Record :=
  ⟨none, none, none, none, none, none, none, none, none, none, none⟩

/-- The external-call results and lookup tables consumed by the pipeline
for one record. -/
structure EnrichInputs where
  res1 : Option String × Option String × Option String
  labRes : Option String × Option (List String)
  res2 : Option String × Option String × Option String
  p495res : Option String
  p19res : Option String
  arealabelDict : List (String × String)
  geonamesDict : List (String × String)
  coords : String → Option String × Option String

/-- The GND "unknown region" sentinel compared against in the source. -/
def zzCode : String :=
  "https://d-nb.info/standards/vocab/gnd/geographic-area-code#ZZ"

/-- Stage 1: `get_gnd_areacode` over (Book Title, Original/Alt Title),
written to every row. -/
def stageGndFirst (res : Option String × Option String × Option String)
    (r : Record) : Record :=
  { r with areacode := res.1, arealabel := res.2.1, noteField := res.2.2 }

/-- Stage 2: `get_wikidata_labels`, written only where the area code is
still absent. -/
def stageWikidataLabels (lab : Option String × Option (List String))
    (r : Record) : Record :=
  if r.areacode = none then { r with germanTitle := lab.1, aliases := lab.2 } else r

/-- Stage 3: `get_gnd_areacode` over (German Title, Aliases), written only
where the area code is still absent. -/
def stageGndSecond (res : Option String × Option String × Option String)
    (r : Record) : Record :=
  if r.areacode = none then
    { r with areacode := res.1, arealabel := res.2.1, noteField := res.2.2 }
  else r

/-- The whole-column `df["GND Areacode"].str.strip()`. -/
def stageStripAreacode (r : Record) : Record :=
  { r with areacode := r.areacode.map pyStrip }

/-- Stage 4: P495 lookup, only where the area code is absent or equals
the ZZ sentinel. -/
def stageP495 (res : Option String) (r : Record) : Record :=
  if r.areacode = none ∨ r.areacode = some zzCode then { r with p495 := res } else r

/-- Stage 5: P19 lookup, only where the area code is absent or ZZ and
P495 is still absent. -/
def stageP19 (res : Option String) (r : Record) : Record :=
  if (r.areacode = none ∨ r.areacode = some zzCode) ∧ r.p495 = none then
    { r with p19 := res }
  else r

/-- Stage 6: `df["GND Mapping"] = df["P495"].apply(match_arealabel, ...)`,
written to every row. -/
def stageGndMapping (arealabelDict : List (String × String)) (r : Record) : Record :=
  { r with gndMapping := matchArealabel r.p495 arealabelDict }

/-- The second whole-column strip of `GND Areacode` and `GND Mapping`. -/
def stageStripMapping (r : Record) : Record :=
  { r with areacode := r.areacode.map pyStrip, gndMapping := r.gndMapping.map pyStrip }

/-- Stage 7: map the GND area code through `gnd_to_geonames`, only where
the Geonames ID is still absent. -/
def stageMapAreacode (geonamesDict : List (String × String)) (r : Record) : Record :=
  if r.geonamesId = none then
    { r with geonamesId := r.areacode.bind (fun a => geonamesDict.lookup a) }
  else r

/-- Stage 8: map the `GND Mapping` value through `gnd_to_geonames`, only
where the Geonames ID is still absent. -/
def stageMapLabel (geonamesDict : List (String × String)) (r : Record) : Record :=
  if r.geonamesId = none then
    { r with geonamesId := r.gndMapping.bind (fun a => geonamesDict.lookup a) }
  else r

/-- `str.extract(r"(\d+)", expand=False)`: the first maximal digit run of
the string, absent when the string has no digit. -/
def extractDigits (s : String) : Option String :=
  match s.data.dropWhile (fun c => !c.isDigit) with
  | [] => none
  | l => some (String.mk (l.takeWhile Char.isDigit))

/-- `df.update(other)` on one column: take the other frame's value where
it is non-absent, keep the own value otherwise. -/
def updateField {α : Type} (other own : Option α) : Option α :=
  match other with
  | some v => some v
  | none => own

/-- `df.update(geonames_df)` on a whole row. -/
def recordUpdate (other own : Record) : Record where
  areacode := updateField other.areacode own.areacode
  arealabel := updateField other.arealabel own.arealabel
  noteField := updateField other.noteField own.noteField
  germanTitle := updateField other.germanTitle own.germanTitle
  aliases := updateField other.aliases own.aliases
  p495 := updateField other.p495 own.p495
  p19 := updateField other.p19 own.p19
  geonamesId := updateField other.geonamesId own.geonamesId
  gndMapping := updateField other.gndMapping own.gndMapping
  latitude := updateField other.latitude own.latitude
  longitude := updateField other.longitude own.longitude

/-- Stage 9: the coordinate fetch. The source copies the frame, replaces
`Geonames ID` by its extracted digit run, fetches latitude/longitude for
rows whose extracted id is non-absent, and merges the copy back with
`df.update`. -/
def stageCoordinates (coords : String → Option String × Option String)
    (r : Record) : Record :=
  let gid := r.geonamesId.bind extractDigits
  let latlng := match gid with
                | some g => coords g
                | none => (none, none)
  recordUpdate
    { r with geonamesId := gid, latitude := latlng.1, longitude := latlng.2 } r

/-- The record state after the two mapping stages, just before the
coordinate fetch. -/
def preCoordinates (I : EnrichInputs) : Record :=
  stageMapLabel I.geonamesDict (stageMapAreacode I.geonamesDict
    (stageStripMapping (stageGndMapping I.arealabelDict
      (stageP19 I.p19res (stageP495 I.p495res
        (stageStripAreacode (stageGndSecond I.res2
          (stageWikidataLabels I.labRes (stageGndFirst I.res1 emptyRecord)))))))))

/-- `enrich_with_geolocation` restricted to one record: the full stage
chain applied to a fresh row. -/
def enrichRecord (I : EnrichInputs) : Record :=
  stageCoordinates I.coords (preCoordinates I)

/-! ## Concrete sample inputs used to exercise the definitions -/

/-- A record whose first authority stage already resolves an area code
that the gazetteer dictionary maps to a GeoNames URI. -/
def sampleEnrichInputs : EnrichInputs where
  res1 := (some "https://d-nb.info/standards/vocab/gnd/geographic-area-code#XA-IT",
           some "Italien", none)
  labRes := (none, none)
  res2 := (none, none, none)
  p495res := none
  p19res := none
  arealabelDict := []
  geonamesDict :=
    [("https://d-nb.info/standards/vocab/gnd/geographic-area-code#XA-IT",
      "http://www.geonames.org/3175395")]
  coords := fun _ => (some "42.83333", some "12.83333")

/-- A GND environment whose search endpoint always fails. -/
def sampleEnvFail : GndEnv where
  searchData := fun _ => none
  authorData := fun _ => none

/-- A GND environment whose search endpoint always answers with zero
results. -/
def sampleEnvZero : GndEnv where
  searchData := fun _ => some ⟨0, []⟩
  authorData := fun _ => none

/-- A result item carrying a Wikidata cross-reference and a coded area,
with fields chosen so that the title/author checks would fail. -/
def sampleItem : GndItem where
  type := ["Work"]
  sameAs := [⟨"https://www.wikidata.org/entity/Q165318"⟩]
  preferredName := some "Robinson Crusoe"
  variantName := []
  firstAuthor := none
  geographicAreaCode :=
    [⟨"https://d-nb.info/standards/vocab/gnd/geographic-area-code#XA-GB", "Großbritannien"⟩]

/-- A GND environment whose search endpoint returns `sampleItem`. -/
def sampleEnvHit : GndEnv where
  searchData := fun _ => some ⟨1, [sampleItem]⟩
  authorData := fun _ => none

/-! ## Helper lemmas -/

/-- The unresolved triple returned both on exhaustion and on transport
failure. -/
theorem gndLoop_nil (U : UnicodeModel) (env : GndEnv) (baseUrl : String)
    (nPages : Nat) (author workWikidataId : Option String) :
    gndLoop U env baseUrl nPages author workWikidataId []
      = (none, none, some "No GND areacode") := rfl

/-- Absent candidate titles are skipped. -/
theorem gndLoop_skip_none (U : UnicodeModel) (env : GndEnv) (baseUrl : String)
    (nPages : Nat) (author workWikidataId : Option String)
    (rest : List (Option String)) :
    gndLoop U env baseUrl nPages author workWikidataId (none :: rest)
      = gndLoop U env baseUrl nPages author workWikidataId rest := rfl

/-- A failing search fetch for the head title short-circuits the loop. -/
theorem gndLoop_fetch_failure (U : UnicodeModel) (env : GndEnv) (baseUrl : String)
    (nPages : Nat) (author workWikidataId : Option String) (t : String)
    (rest : List (Option String))
    (h : env.searchData (mkSearchUrl baseUrl (normalizeInput U (some t)) nPages) = none) :
    gndLoop U env baseUrl nPages author workWikidataId (some t :: rest)
      = (none, none, some "No GND areacode") := by
  simp [gndLoop, h]

/-- A zero-result response for the head title advances to the next
candidate title. -/
theorem gndLoop_zero_results (U : UnicodeModel) (env : GndEnv) (baseUrl : String)
    (nPages : Nat) (author workWikidataId : Option String) (t : String)
    (rest : List (Option String)) (resp : GndResponse)
    (h : env.searchData (mkSearchUrl baseUrl (normalizeInput U (some t)) nPages) = some resp)
    (h0 : resp.totalItems = 0) :
    gndLoop U env baseUrl nPages author workWikidataId (some t :: rest)
      = gndLoop U env baseUrl nPages author workWikidataId rest := by
  simp [gndLoop, h, h0]

/-- When every non-absent candidate title draws a zero-result response,
the loop exhausts into the unresolved triple. -/
theorem gndLoop_exhausts (U : UnicodeModel) (env : GndEnv) (baseUrl : String)
    (nPages : Nat) (author workWikidataId : Option String)
    (titles : List (Option String))
    (h : ∀ s : String, some s ∈ titles →
      ∃ resp, env.searchData (mkSearchUrl baseUrl (normalizeInput U (some s)) nPages)
          = some resp ∧ resp.totalItems = 0) :
    gndLoop U env baseUrl nPages author workWikidataId titles
      = (none, none, some "No GND areacode") := by
  induction titles with
  | nil => rfl
  | cons t rest ih =>
      cases t with
      | none =>
          rw [gndLoop_skip_none]
          exact ih (fun s hs => h s (by simp [hs]))
      | some s =>
          obtain ⟨resp, hr, h0⟩ := h s (by simp)
          rw [gndLoop_zero_results U env baseUrl nPages author workWikidataId s rest resp hr h0]
          exact ih (fun s2 hs => h s2 (by simp [hs]))

/-- `dropWhile` with a failing head is the identity. -/
theorem dropWhile_cons_of_false (p : Char → Bool) (a : Char) (l : List Char)
    (h : p a = false) : (a :: l).dropWhile p = a :: l := by
  simp [List.dropWhile_cons, h]

/-- Stripping both ends is idempotent. -/
theorem pyStripChars_idem (l : List Char) :
    pyStripChars (pyStripChars l) = pyStripChars l := by
  unfold pyStripChars
  have hfront : (l.dropWhile isPySpace).dropWhile isPySpace = l.dropWhile isPySpace :=
    List.dropWhile_idempotent isPySpace l
  set m := l.dropWhile isPySpace with hm
  have hdw : (m.rdropWhile isPySpace).dropWhile isPySpace = m.rdropWhile isPySpace := by
    rcases hr : m.rdropWhile isPySpace with _ | ⟨a, t⟩
    · simp
    · obtain ⟨t2, ht2⟩ := List.rdropWhile_prefix isPySpace m
      rw [hr] at ht2
      have hm2 : m = a :: (t ++ t2) := by rw [← ht2]; rfl
      have hpa : isPySpace a = false := by
        cases hp : isPySpace a with
        | false => rfl
        | true =>
            exfalso
            rw [hm2, List.dropWhile_cons] at hfront
            simp only [hp, if_true] at hfront
            have hlen := ((List.dropWhile_sublist isPySpace).length_le :
              ((t ++ t2).dropWhile isPySpace).length ≤ (t ++ t2).length)
            rw [hfront] at hlen
            simp at hlen
      exact dropWhile_cons_of_false isPySpace a t hpa
  rw [hdw, List.rdropWhile_idempotent]

/-- `str.strip()` is idempotent. -/
theorem pyStrip_idem (s : String) : pyStrip (pyStrip s) = pyStrip s := by
  unfold pyStrip
  exact congrArg String.mk (pyStripChars_idem s.data)

/-- `updateField` with identical frames keeps the value. -/
theorem updateField_self {α : Type} (x : Option α) : updateField x x = x := by
  cases x <;> rfl

/-- The label-fetch stage never touches the area code. -/
theorem stageWikidataLabels_areacode (lab : Option String × Option (List String))
    (r : Record) : (stageWikidataLabels lab r).areacode = r.areacode := by
  unfold stageWikidataLabels
  split <;> rfl

/-- The second authority stage is the identity on records whose area code
is already set. -/
theorem stageGndSecond_of_set (res : Option String × Option String × Option String)
    (r : Record) (h : r.areacode ≠ none) : stageGndSecond res r = r := by
  unfold stageGndSecond
  simp [h]

/-- The P495 stage never touches the area code. -/
theorem stageP495_areacode (res : Option String) (r : Record) :
    (stageP495 res r).areacode = r.areacode := by
  unfold stageP495
  split <;> rfl

/-- The P19 stage never touches the area code. -/
theorem stageP19_areacode (res : Option String) (r : Record) :
    (stageP19 res r).areacode = r.areacode := by
  unfold stageP19
  split <;> rfl

/-- The area-code mapping stage never touches the area code. -/
theorem stageMapAreacode_areacode (d : List (String × String)) (r : Record) :
    (stageMapAreacode d r).areacode = r.areacode := by
  unfold stageMapAreacode
  split <;> rfl

/-- The label mapping stage never touches the area code. -/
theorem stageMapLabel_areacode (d : List (String × String)) (r : Record) :
    (stageMapLabel d r).areacode = r.areacode := by
  unfold stageMapLabel
  split <;> rfl

/-- The label mapping stage is the identity on records whose gazetteer id
is already set. -/
theorem stageMapLabel_of_set (d : List (String × String)) (r : Record)
    (h : r.geonamesId ≠ none) : stageMapLabel d r = r := by
  unfold stageMapLabel
  simp [h]

/-- The coordinate stage never touches the area code. -/
theorem stageCoordinates_areacode (coords : String → Option String × Option String)
    (r : Record) : (stageCoordinates coords r).areacode = r.areacode := by
  unfold stageCoordinates recordUpdate
  exact updateField_self r.areacode

/-- The second strip stage trims the area code. -/
theorem stageStripMapping_areacode (r : Record) :
    (stageStripMapping r).areacode = r.areacode.map pyStrip := rfl

/-- The first strip stage trims the area code. -/
theorem stageStripAreacode_areacode (r : Record) :
    (stageStripAreacode r).areacode = r.areacode.map pyStrip := rfl

/-- The `GND Mapping` stage never touches the area code. -/
theorem stageGndMapping_areacode (d : List (String × String)) (r : Record) :
    (stageGndMapping d r).areacode = r.areacode := rfl

/-- The first authority stage writes its area-code result. -/
theorem stageGndFirst_areacode (res : Option String × Option String × Option String)
    (r : Record) : (stageGndFirst res r).areacode = res.1 := rfl

/-! ## Claims -/

/-- C3: ordinary network/HTTP failures (connection errors, read timeouts
and forcelisted server statuses 500/502/503/504) are retried within the
configured budget of 2 connection retries, 2 read retries and 5 total;
the backoff grows by a factor of two from the 0.1 base; and whenever the
retry budget is exhausted, or any other request exception occurs —
including the HTTP error raised for a non-retried 4xx status —
`fetch_page` returns the failure marker `none` instead of propagating an
exception. -/
theorem claim_C3_transport_retry_and_failure_marker :
    (∀ outcomes : List HttpOutcome,
        sessionGet initialRetryBudget outcomes = .failure → fetchPage outcomes = none)
    ∧ fetchPage [.status 503 "e1", .status 503 "e2", .status 502 "e3",
        .status 200 "payload"] = some "payload"
    ∧ fetchPage (List.replicate 6 (.status 503 "unavailable")) = none
    ∧ fetchPage [.status 404 "client error"] = none
    ∧ fetchPage [.connError, .connError, .status 200 "ok"] = some "ok"
    ∧ fetchPage [.connError, .connError, .connError, .status 200 "ok"] = none
    ∧ (∀ n : Nat, backoffDelay (n + 1) = 2 * backoffDelay n) := by
  refine ⟨?_, by decide, by decide, by decide, by decide, by decide, ?_⟩
  · intro outcomes h
    simp [fetchPage, h]
  · intro n
    simp [backoffDelay, pow_succ]
    ring

/-- Witness for C3 at concrete inputs: a budget-exhausting outcome list
maps to the failure marker, and the backoff doubles. -/
theorem claim_C3_witness :
    fetchPage (List.replicate 6 (.status 503 "unavailable")) = none
      ∧ backoffDelay 1 = 2 * backoffDelay 0 :=
  ⟨claim_C3_transport_retry_and_failure_marker.1 _ (by decide),
   claim_C3_transport_retry_and_failure_marker.2.2.2.2.2.2 0⟩

/-- C4: when the search fetch for a candidate title fails,
`get_gnd_areacode` returns the unresolved triple immediately — the result
does not depend on the remaining candidate titles — whereas a zero-result
response merely advances to the next title. -/
theorem claim_C4_fetch_failure_aborts :
    (∀ (U : UnicodeModel) (env : GndEnv) (baseUrl : String) (nPages : Nat)
        (author workWikidataId : Option String) (t : String)
        (rest rest2 : List (Option String)),
      env.searchData (mkSearchUrl baseUrl (normalizeInput U (some t)) nPages) = none →
        getGndAreacode U env baseUrl nPages author workWikidataId (some t :: rest)
            = (none, none, some "No GND areacode")
          ∧ getGndAreacode U env baseUrl nPages author workWikidataId (some t :: rest)
            = getGndAreacode U env baseUrl nPages author workWikidataId (some t :: rest2))
    ∧ (∀ (U : UnicodeModel) (env : GndEnv) (baseUrl : String) (nPages : Nat)
        (author workWikidataId : Option String) (t : String)
        (rest : List (Option String)) (resp : GndResponse),
      env.searchData (mkSearchUrl baseUrl (normalizeInput U (some t)) nPages) = some resp →
      resp.totalItems = 0 →
        getGndAreacode U env baseUrl nPages author workWikidataId (some t :: rest)
          = getGndAreacode U env baseUrl nPages author workWikidataId rest) := by
  constructor
  · intro U env baseUrl nPages author workWikidataId t rest rest2 h
    refine ⟨gndLoop_fetch_failure U env baseUrl nPages author workWikidataId t rest h, ?_⟩
    rw [getGndAreacode, getGndAreacode,
      gndLoop_fetch_failure U env baseUrl nPages author workWikidataId t rest h,
      gndLoop_fetch_failure U env baseUrl nPages author workWikidataId t rest2 h]
  · intro U env baseUrl nPages author workWikidataId t rest resp h h0
    exact gndLoop_zero_results U env baseUrl nPages author workWikidataId t rest resp h h0

/-- Witness for C4: under the always-failing environment the attempt on
two candidate titles aborts with the unresolved triple, and under the
zero-result environment the head title is skipped. -/
theorem claim_C4_witness :
    (getGndAreacode asciiUnicode sampleEnvFail "https://lobid.org/gnd/" 100
        (some "Defoe, Daniel") none [some "Robinson Crusoe", some "Robinson"]
        = (none, none, some "No GND areacode")
      ∧ getGndAreacode asciiUnicode sampleEnvFail "https://lobid.org/gnd/" 100
          (some "Defoe, Daniel") none [some "Robinson Crusoe", some "Robinson"]
        = getGndAreacode asciiUnicode sampleEnvFail "https://lobid.org/gnd/" 100
            (some "Defoe, Daniel") none [some "Robinson Crusoe"])
    ∧ getGndAreacode asciiUnicode sampleEnvZero "https://lobid.org/gnd/" 100
        (some "Defoe, Daniel") none [some "Robinson Crusoe"]
      = getGndAreacode asciiUnicode sampleEnvZero "https://lobid.org/gnd/" 100
          (some "Defoe, Daniel") none [] :=
  ⟨claim_C4_fetch_failure_aborts.1 asciiUnicode sampleEnvFail "https://lobid.org/gnd/" 100
      (some "Defoe, Daniel") none "Robinson Crusoe" [some "Robinson"] [] rfl,
   claim_C4_fetch_failure_aborts.2 asciiUnicode sampleEnvZero "https://lobid.org/gnd/" 100
      (some "Defoe, Daniel") none "Robinson Crusoe" [] ⟨0, []⟩ rfl rfl⟩

/-- C10: `get_gnd_areacode` returns the identical triple
`(absent, absent, "No GND areacode")` both when every candidate title is
exhausted with zero-result responses and when a transport fetch fails
mid-attempt, so the two situations are indistinguishable by the returned
value. -/
theorem claim_C10_failure_indistinguishable :
    ∀ (U : UnicodeModel) (envF envZ : GndEnv) (baseUrl : String) (nPages : Nat)
      (author workWikidataId : Option String) (t : String)
      (rest titles : List (Option String)),
      envF.searchData (mkSearchUrl baseUrl (normalizeInput U (some t)) nPages) = none →
      (∀ s : String, some s ∈ titles →
        ∃ resp, envZ.searchData (mkSearchUrl baseUrl (normalizeInput U (some s)) nPages)
            = some resp ∧ resp.totalItems = 0) →
      getGndAreacode U envF baseUrl nPages author workWikidataId (some t :: rest)
          = getGndAreacode U envZ baseUrl nPages author workWikidataId titles
        ∧ getGndAreacode U envF baseUrl nPages author workWikidataId (some t :: rest)
          = (none, none, some "No GND areacode") := by
  intro U envF envZ baseUrl nPages author workWikidataId t rest titles hF hZ
  have h1 := gndLoop_fetch_failure U envF baseUrl nPages author workWikidataId t rest hF
  have h2 := gndLoop_exhausts U envZ baseUrl nPages author workWikidataId titles hZ
  exact ⟨by rw [getGndAreacode, getGndAreacode, h1, h2], h1⟩

/-- Witness for C10: a failing fetch on the only title and an exhausted
two-title attempt produce the same triple. -/
theorem claim_C10_witness :
    getGndAreacode asciiUnicode sampleEnvFail "https://lobid.org/gnd/" 100
        (some "Defoe, Daniel") none [some "Robinson Crusoe"]
      = getGndAreacode asciiUnicode sampleEnvZero "https://lobid.org/gnd/" 100
          (some "Defoe, Daniel") none [some "Robinson Crusoe", some "Robinson"] :=
  (claim_C10_failure_indistinguishable asciiUnicode sampleEnvFail sampleEnvZero
    "https://lobid.org/gnd/" 100 (some "Defoe, Daniel") none "Robinson Crusoe" []
    [some "Robinson Crusoe", some "Robinson"] rfl
    (fun _ _ => ⟨⟨0, []⟩, rfl, rfl⟩)).1

/-- C5: an item whose type is not excluded and whose extracted Wikidata
cross-reference equals the record's known work Wikidata id (both
non-absent) is accepted by `_validate_gnd_result` immediately, with a
result independent of the title, the author, and the author-variant
endpoint — the title-membership and author-name checks are bypassed —
and `get_gnd_areacode` then returns that item's first coded area. -/
theorem claim_C5_crossref_accepts_immediately :
    (∀ (U : UnicodeModel) (env env2 : GndEnv) (baseUrl : String) (item : GndItem)
        (w : String) (title title2 : String) (author author2 : Option String),
      item.type.any (fun t => excludedTypes.contains t) = false →
      extractWikidataId item.sameAs = some w →
        validateGndResult U env baseUrl item (some w) title author = true
        ∧ validateGndResult U env baseUrl item (some w) title author
          = validateGndResult U env2 baseUrl item (some w) title2 author2)
    ∧ (∀ (U : UnicodeModel) (env : GndEnv) (baseUrl : String) (nPages : Nat)
        (author : Option String) (w t : String) (rest : List (Option String))
        (resp : GndResponse) (item : GndItem) (restItems : List GndItem)
        (gid glabel : String) (grest : List GeoAreaCode),
      env.searchData (mkSearchUrl baseUrl (normalizeInput U (some t)) nPages) = some resp →
      resp.totalItems ≠ 0 →
      resp.member = item :: restItems →
      item.type.any (fun ty => excludedTypes.contains ty) = false →
      extractWikidataId item.sameAs = some w →
      item.geographicAreaCode = ⟨gid, glabel⟩ :: grest →
        getGndAreacode U env baseUrl nPages author (some w) (some t :: rest)
          = (some gid, some glabel, none)) := by
  have accept : ∀ (U : UnicodeModel) (env : GndEnv) (baseUrl : String) (item : GndItem)
      (w title : String) (author : Option String),
      item.type.any (fun t => excludedTypes.contains t) = false →
      extractWikidataId item.sameAs = some w →
      validateGndResult U env baseUrl item (some w) title author = true := by
    intro U env baseUrl item w title author hty hw
    unfold validateGndResult
    rw [hty, hw]
    simp
  constructor
  · intro U env env2 baseUrl item w title title2 author author2 hty hw
    rw [accept U env baseUrl item w title author hty hw,
      accept U env2 baseUrl item w title2 author2 hty hw]
    exact ⟨rfl, rfl⟩
  · intro U env baseUrl nPages author w t rest resp item restItems gid glabel grest
      hsearch h0 hmem hty hw hgeo
    have hfind : List.find?
        (fun it => validateGndResult U env baseUrl it (some w)
          (normalizeInput U (some t)) author) (item :: restItems) = some item := by
      rw [List.find?_cons,
        accept U env baseUrl item w (normalizeInput U (some t)) author hty hw]
    rw [getGndAreacode]
    rw [gndLoop, hsearch]
    simp only [h0, if_false, hmem, hfind]
    simp [extractGeocode, hgeo]

/-- Witness for C5 on `sampleItem` and `sampleEnvHit`: the cross-reference
match accepts and the resolver returns the item's coded area. -/
theorem claim_C5_witness :
    (validateGndResult asciiUnicode sampleEnvHit "https://lobid.org/gnd/" sampleItem
        (some "Q165318") "robinson crusoe" (some "Defoe, Daniel") = true
      ∧ validateGndResult asciiUnicode sampleEnvHit "https://lobid.org/gnd/" sampleItem
          (some "Q165318") "robinson crusoe" (some "Defoe, Daniel")
        = validateGndResult asciiUnicode sampleEnvFail "https://lobid.org/gnd/" sampleItem
            (some "Q165318") "another title" none)
    ∧ getGndAreacode asciiUnicode sampleEnvHit "https://lobid.org/gnd/" 100
        (some "Defoe, Daniel") (some "Q165318") [some "Robinson Crusoe"]
      = (some "https://d-nb.info/standards/vocab/gnd/geographic-area-code#XA-GB",
         some "Großbritannien", none) :=
  ⟨claim_C5_crossref_accepts_immediately.1 asciiUnicode sampleEnvHit sampleEnvFail
      "https://lobid.org/gnd/" sampleItem "Q165318" "robinson crusoe" "another title"
      (some "Defoe, Daniel") none (by decide) (by decide),
   claim_C5_crossref_accepts_immediately.2 asciiUnicode sampleEnvHit
      "https://lobid.org/gnd/" 100 (some "Defoe, Daniel") "Q165318" "Robinson Crusoe"
      [] ⟨1, [sampleItem]⟩ sampleItem [] _ _ [] rfl (by decide) rfl (by decide)
      (by decide) rfl⟩

/-- C7: `get_wikidata_property` returns the English label of the first
claim's target entity; it returns absent when the entity has no claim for
the property (or an empty claim list), and whenever any claim target is
the explicit unknown-value sentinel — without crashing on that case. -/
theorem claim_C7_property_first_claim :
    (∀ (fetchItem : String → WdEntity) (p q : String),
      ((fetchItem q).claims.lookup p = none) →
      getWikidataProperty fetchItem p (some q) = none)
    ∧ (∀ (fetchItem : String → WdEntity) (p q : String),
      ((fetchItem q).claims.lookup p = some []) →
      getWikidataProperty fetchItem p (some q) = none)
    ∧ (∀ (fetchItem : String → WdEntity) (p q : String) (cl : List WdClaim) (c : WdClaim),
      ((fetchItem q).claims.lookup p = some cl) → c ∈ cl → c.target = none →
      getWikidataProperty fetchItem p (some q) = none)
    ∧ (∀ (fetchItem : String → WdEntity) (p q : String) (c : WdClaim)
        (rest : List WdClaim) (tgt : WdTarget),
      ((fetchItem q).claims.lookup p = some (c :: rest)) → c.target = some tgt →
      (∀ d ∈ c :: rest, d.target ≠ none) →
      getWikidataProperty fetchItem p (some q) = tgt.labels.lookup "en")
    ∧ (∀ (fetchItem : String → WdEntity) (p : String),
      getWikidataProperty fetchItem p none = none) := by
  have hnone : ∀ (cl : List WdClaim) (c : WdClaim), c ∈ cl → c.target = none →
      collectCountries cl = none := by
    intro cl
    induction cl with
    | nil => intro c hc; cases hc
    | cons a t ih =>
        intro c hc htgt
        rcases List.mem_cons.mp hc with hc2 | hc2
        · subst hc2
          simp [collectCountries, htgt]
        · cases hcc : a.target with
          | none => simp [collectCountries, hcc]
          | some tgt => simp [collectCountries, hcc, ih c hc2 htgt]
  have hsome : ∀ (cl : List WdClaim), (∀ d ∈ cl, d.target ≠ none) →
      ∃ l, collectCountries cl = some l := by
    intro cl
    induction cl with
    | nil => intro _; exact ⟨[], rfl⟩
    | cons a t ih =>
        intro h
        obtain ⟨l, hl⟩ := ih (fun d hd => h d (by simp [hd]))
        cases hcc : a.target with
        | none => exact absurd hcc (h a (by simp))
        | some tgt =>
            exact ⟨tgt.labels.lookup "en" :: l, by rw [collectCountries, hcc, hl]; rfl⟩
  refine ⟨?_, ?_, ?_, ?_, fun _ _ => rfl⟩
  · intro fetchItem p q h
    simp [getWikidataProperty, h]
  · intro fetchItem p q h
    simp [getWikidataProperty, h, collectCountries]
  · intro fetchItem p q cl c h hc htgt
    rw [getWikidataProperty]
    simp only [h]
    rw [hnone cl c hc htgt]
  · intro fetchItem p q c rest tgt h htgt hall
    obtain ⟨l, hl⟩ := hsome rest (fun d hd => hall d (by simp [hd]))
    rw [getWikidataProperty]
    simp only [h]
    rw [collectCountries, htgt, hl]
    rfl

/-- Witness for C7 at a concrete entity: a present first target yields its
English label, and an unknown-value sentinel in the claim list yields
absent. -/
theorem claim_C7_witness :
    getWikidataProperty
        (fun _ => ⟨[("P495", [⟨some ⟨[("en", "France")]⟩⟩])], [], []⟩) "P495" (some "Q1")
      = some "France"
    ∧ getWikidataProperty
        (fun _ => ⟨[("P495", [⟨some ⟨[("en", "France")]⟩⟩, ⟨none⟩])], [], []⟩) "P495"
        (some "Q1")
      = none :=
  ⟨by
    have h := claim_C7_property_first_claim.2.2.2.1
      (fun _ => ⟨[("P495", [⟨some ⟨[("en", "France")]⟩⟩])], [], []⟩) "P495" "Q1"
      ⟨some ⟨[("en", "France")]⟩⟩ [] ⟨[("en", "France")]⟩ rfl rfl (by decide)
    simpa using h,
   claim_C7_property_first_claim.2.2.1
      (fun _ => ⟨[("P495", [⟨some ⟨[("en", "France")]⟩⟩, ⟨none⟩])], [], []⟩) "P495" "Q1"
      _ ⟨none⟩ rfl (by simp) rfl⟩

/-- C8 counterexample: a well-formed response with no status message but
an empty `lat` text makes the source run `float("")`, which raises an
uncaught `ValueError` and aborts the run — an abort that is not the
named `GeoNamesAPIError`, so the API-reported error status is not the
only per-call outcome that can abort. -/
theorem claim_C8_counterexample :
    getGeonamesData
        (fun _ => some ⟨some ⟨none, some "Earth", some "", some "0.0"⟩⟩)
        "demo" "http://api.geonames.org/get" "6295630"
      = .error (.valueError "")
    ∧ statusMessageOf ⟨none, some "Earth", some "", some "0.0"⟩ = none
    ∧ (∀ e : GeoNamesAPIError, GeoRunError.valueError "" ≠ .apiError e) :=
  ⟨rfl, rfl, fun _ h => GeoRunError.noConfusion h⟩

/-- C8 amended: `get_geonames_data` returns the absent pair on transport
failure or on missing coordinate fields, returns the coordinate texts
when both convert as floats, and raises the distinct `GeoNamesAPIError`
— carrying the upstream message and the rate-limit hint — exactly when
the response carries an API error status with a message; but this is not
the only aborting outcome: a body that is not well-formed XML and a
present but non-numeric coordinate text also abort (uncaught
`ParseError` / `ValueError`), and a call aborts in exactly these three
cases. -/
theorem claim_C8_geonames_abort_cases :
    (∀ (fetch : String → Option GeoContent) (username baseUrl geonameId : String),
      fetch (mkGeonamesUrl baseUrl geonameId username) = none →
      getGeonamesData fetch username baseUrl geonameId = .ok (none, none))
    ∧ (∀ (fetch : String → Option GeoContent) (username baseUrl geonameId : String),
      fetch (mkGeonamesUrl baseUrl geonameId username) = some ⟨none⟩ →
      getGeonamesData fetch username baseUrl geonameId = .error .parseError)
    ∧ (∀ (fetch : String → Option GeoContent) (username baseUrl geonameId : String)
        (xml : GeoXmlDoc) (m : String),
      fetch (mkGeonamesUrl baseUrl geonameId username) = some ⟨some xml⟩ →
      statusMessageOf xml = some m →
      getGeonamesData fetch username baseUrl geonameId
        = .error (.apiError ⟨m, mkGeoNamesErrorMessage m⟩))
    ∧ (∀ (fetch : String → Option GeoContent) (username baseUrl geonameId : String)
        (xml : GeoXmlDoc),
      fetch (mkGeonamesUrl baseUrl geonameId username) = some ⟨some xml⟩ →
      statusMessageOf xml = none →
      (xml.lat = none ∨ xml.lng = none) →
      getGeonamesData fetch username baseUrl geonameId = .ok (none, none))
    ∧ (∀ (fetch : String → Option GeoContent) (username baseUrl geonameId : String)
        (xml : GeoXmlDoc) (la ln : String),
      fetch (mkGeonamesUrl baseUrl geonameId username) = some ⟨some xml⟩ →
      statusMessageOf xml = none →
      xml.lat = some la → xml.lng = some ln →
      isPyFloatString la = true → isPyFloatString ln = true →
      getGeonamesData fetch username baseUrl geonameId = .ok (some la, some ln))
    ∧ (∀ (fetch : String → Option GeoContent) (username baseUrl geonameId : String)
        (xml : GeoXmlDoc) (la ln : String),
      fetch (mkGeonamesUrl baseUrl geonameId username) = some ⟨some xml⟩ →
      statusMessageOf xml = none →
      xml.lat = some la → xml.lng = some ln →
      isPyFloatString la = false →
      getGeonamesData fetch username baseUrl geonameId = .error (.valueError la))
    ∧ (∀ (fetch : String → Option GeoContent) (username baseUrl geonameId : String)
        (xml : GeoXmlDoc) (la ln : String),
      fetch (mkGeonamesUrl baseUrl geonameId username) = some ⟨some xml⟩ →
      statusMessageOf xml = none →
      xml.lat = some la → xml.lng = some ln →
      isPyFloatString la = true → isPyFloatString ln = false →
      getGeonamesData fetch username baseUrl geonameId = .error (.valueError ln))
    ∧ (∀ (fetch : String → Option GeoContent) (username baseUrl geonameId : String),
      (∀ r, fetch (mkGeonamesUrl baseUrl geonameId username) = some r →
        ∃ xml, r.parsed = some xml ∧ statusMessageOf xml = none ∧
          (xml.lat = none ∨ xml.lng = none ∨
            ∃ la ln, xml.lat = some la ∧ xml.lng = some ln ∧
              isPyFloatString la = true ∧ isPyFloatString ln = true)) →
      ∃ p, getGeonamesData fetch username baseUrl geonameId = .ok p) := by
  refine ⟨?_, ?_, ?_, ?_, ?_, ?_, ?_, ?_⟩
  · intro fetch username baseUrl geonameId h
    simp [getGeonamesData, h]
  · intro fetch username baseUrl geonameId h
    simp [getGeonamesData, h]
  · intro fetch username baseUrl geonameId xml m h hm
    simp [getGeonamesData, h, hm]
  · intro fetch username baseUrl geonameId xml h hm hlat
    rw [getGeonamesData, h]
    simp only [hm]
    rcases hlat with hlat | hlat <;>
      · cases h1 : xml.lat <;> cases h2 : xml.lng <;> simp_all
  · intro fetch username baseUrl geonameId xml la ln h hm hla hln hfa hfb
    simp [getGeonamesData, h, hm, hla, hln, hfa, hfb]
  · intro fetch username baseUrl geonameId xml la ln h hm hla hln hfa
    simp [getGeonamesData, h, hm, hla, hln, hfa]
  · intro fetch username baseUrl geonameId xml la ln h hm hla hln hfa hfb
    simp [getGeonamesData, h, hm, hla, hln, hfa, hfb]
  · intro fetch username baseUrl geonameId h
    cases hf : fetch (mkGeonamesUrl baseUrl geonameId username) with
    | none => exact ⟨(none, none), by simp [getGeonamesData, hf]⟩
    | some r =>
        obtain ⟨xml, hp, hm, hco⟩ := h r hf
        rcases hco with hla | hln | ⟨la, ln, hla, hln, hfa, hfb⟩
        · refine ⟨(none, none), ?_⟩
          cases h2 : xml.lng <;> simp [getGeonamesData, hf, hp, hm, hla, h2]
        · refine ⟨(none, none), ?_⟩
          cases h1 : xml.lat <;> simp [getGeonamesData, hf, hp, hm, hln, h1]
        · exact ⟨(some la, some ln),
            by simp [getGeonamesData, hf, hp, hm, hla, hln, hfa, hfb]⟩

/-- Witness for C8 amended: a failing fetch yields the absent pair; an
error status raises the named error carrying the upstream message and
the hint; numeric coordinate texts are returned. -/
theorem claim_C8_witness :
    getGeonamesData (fun _ => none) "demo" "http://api.geonames.org/get" "2950159"
        = .ok (none, none)
    ∧ getGeonamesData
        (fun _ => some ⟨some ⟨some [("message", "hourly limit exceeded"), ("value", "19")],
          none, none, none⟩⟩)
        "demo" "http://api.geonames.org/get" "2950159"
      = .error (.apiError ⟨"hourly limit exceeded",
          mkGeoNamesErrorMessage "hourly limit exceeded"⟩)
    ∧ getGeonamesData
        (fun _ => some ⟨some ⟨none, some "Rome", some "41.89193", some "12.51133"⟩⟩)
        "demo" "http://api.geonames.org/get" "3169070"
      = .ok (some "41.89193", some "12.51133") :=
  ⟨claim_C8_geonames_abort_cases.1 (fun _ => none) "demo" "http://api.geonames.org/get"
      "2950159" rfl,
   claim_C8_geonames_abort_cases.2.2.1
      (fun _ => some ⟨some ⟨some [("message", "hourly limit exceeded"), ("value", "19")],
        none, none, none⟩⟩)
      "demo" "http://api.geonames.org/get" "2950159" _ "hourly limit exceeded" rfl
      (by decide),
   claim_C8_geonames_abort_cases.2.2.2.2.1
      (fun _ => some ⟨some ⟨none, some "Rome", some "41.89193", some "12.51133"⟩⟩)
      "demo" "http://api.geonames.org/get" "3169070" _ "41.89193" "12.51133" rfl
      (by decide) (by decide) (by decide) (by decide) (by decide)⟩

/-- C9: in the mapping stage, a record still lacking a gazetteer id is
first keyed by its authority area code; only when that lookup fails is
the property-derived `GND Mapping` label lookup consulted, so whenever
both keys would map, the gazetteer id comes from the authority area
code. -/
theorem claim_C9_mapping_order :
    (∀ (gdict : List (String × String)) (r : Record) (g : String),
      r.geonamesId = none →
      r.areacode.bind (fun a => gdict.lookup a) = some g →
      (stageMapLabel gdict (stageMapAreacode gdict r)).geonamesId = some g)
    ∧ (∀ (gdict : List (String × String)) (r : Record),
      r.geonamesId = none →
      r.areacode.bind (fun a => gdict.lookup a) = none →
      (stageMapLabel gdict (stageMapAreacode gdict r)).geonamesId
        = r.gndMapping.bind (fun a => gdict.lookup a))
    ∧ (∀ (gdict : List (String × String)) (r : Record) (g g2 : String),
      r.geonamesId = none →
      r.areacode.bind (fun a => gdict.lookup a) = some g →
      r.gndMapping.bind (fun a => gdict.lookup a) = some g2 →
      (stageMapLabel gdict (stageMapAreacode gdict r)).geonamesId = some g) := by
  have h1 : ∀ (gdict : List (String × String)) (r : Record) (g : String),
      r.geonamesId = none →
      r.areacode.bind (fun a => gdict.lookup a) = some g →
      (stageMapLabel gdict (stageMapAreacode gdict r)).geonamesId = some g := by
    intro gdict r g hid hmap
    simp [stageMapAreacode, stageMapLabel, hid, hmap]
  refine ⟨h1, ?_, fun gdict r g g2 hid hmap _ => h1 gdict r g hid hmap⟩
  · intro gdict r hid hmap
    simp [stageMapAreacode, stageMapLabel, hid, hmap]

/-- Witness for C9 at a concrete record where both keys would map: the
gazetteer id comes from the area code's entry. -/
theorem claim_C9_witness :
    (stageMapLabel [("AC", "http://www.geonames.org/1"), ("LB", "http://www.geonames.org/2")]
        (stageMapAreacode
          [("AC", "http://www.geonames.org/1"), ("LB", "http://www.geonames.org/2")]
          { emptyRecord with areacode := some "AC", gndMapping := some "LB" })).geonamesId
      = some "http://www.geonames.org/1" :=
  claim_C9_mapping_order.2.2
    [("AC", "http://www.geonames.org/1"), ("LB", "http://www.geonames.org/2")]
    { emptyRecord with areacode := some "AC", gndMapping := some "LB" }
    "http://www.geonames.org/1" "http://www.geonames.org/2" rfl (by decide) (by decide)

/-- C1 counterexample: in `sampleEnrichInputs` the area-code mapping
stage sets the gazetteer id to the GeoNames URI, still present just
before the coordinate stage, but the coordinate stage (the digit
extraction written back by `df.update`) changes the stored value to the
bare numeric id — a later stage changes a non-absent gazetteer id, so
the claim as stated is false. -/
theorem claim_C1_counterexample :
    (preCoordinates sampleEnrichInputs).geonamesId
        = some "http://www.geonames.org/3175395"
    ∧ (enrichRecord sampleEnrichInputs).geonamesId = some "3175395"
    ∧ ((some "http://www.geonames.org/3175395" : Option String)
        ≠ some "3175395") :=
  ⟨by decide, by decide, by decide⟩

/-- C1 amended: among the stages that assign the area code and the
gazetteer id, first success wins — the second authority stage leaves a
record with a non-absent area code unchanged, the label mapping stage
leaves a record with a non-absent gazetteer id unchanged, and a
non-absent first-stage area code reaches the final record unchanged up
to whitespace trimming; the only later modification is the coordinate
stage rewriting the stored gazetteer id to its extracted digit run. -/
theorem claim_C1_amended_first_success :
    (∀ (res : Option String × Option String × Option String) (r : Record),
      r.areacode ≠ none → stageGndSecond res r = r)
    ∧ (∀ (d : List (String × String)) (r : Record),
      r.geonamesId ≠ none → stageMapLabel d r = r)
    ∧ (∀ (I : EnrichInputs) (v : String),
      I.res1.1 = some v → (enrichRecord I).areacode = some (pyStrip v))
    ∧ (∀ (I : EnrichInputs) (g d2 : String),
      (preCoordinates I).geonamesId = some g → extractDigits g = some d2 →
      (enrichRecord I).geonamesId = some d2) := by
  refine ⟨stageGndSecond_of_set, stageMapLabel_of_set, ?_, ?_⟩
  · intro I v h
    have hz : (stageWikidataLabels I.labRes
        (stageGndFirst I.res1 emptyRecord)).areacode = some v := by
      rw [stageWikidataLabels_areacode, stageGndFirst_areacode, h]
    rw [enrichRecord, stageCoordinates_areacode, preCoordinates,
      stageMapLabel_areacode, stageMapAreacode_areacode, stageStripMapping_areacode,
      stageGndMapping_areacode, stageP19_areacode, stageP495_areacode,
      stageGndSecond_of_set I.res2 _ (by rw [hz]; simp),
      stageStripAreacode_areacode, hz]
    simp [pyStrip_idem]
  · intro I g d2 hg hd
    rw [enrichRecord]
    simp [stageCoordinates, recordUpdate, updateField, hg, hd]

/-- Witness for C1 amended at `sampleEnrichInputs`: the first-stage area
code survives to the final record (trimmed), and the final gazetteer id
is the digit run extracted from the mapped GeoNames URI. -/
theorem claim_C1_witness :
    (enrichRecord sampleEnrichInputs).areacode
        = some (pyStrip "https://d-nb.info/standards/vocab/gnd/geographic-area-code#XA-IT")
    ∧ (enrichRecord sampleEnrichInputs).geonamesId = some "3175395" :=
  ⟨claim_C1_amended_first_success.2.2.1 sampleEnrichInputs
      "https://d-nb.info/standards/vocab/gnd/geographic-area-code#XA-IT" rfl,
   claim_C1_amended_first_success.2.2.2 sampleEnrichInputs
      "http://www.geonames.org/3175395" "3175395" (by decide) (by decide)⟩

/-- A window that already covers every entry is not pruned. -/
theorem liveEntries_eq_self (W now : ℚ) (es : List ℚ) (h : ∀ e ∈ es, now - W < e) :
    liveEntries W now es = es :=
  List.filter_eq_self.mpr (fun e he => by simpa using h e he)

/-- Granted-call timestamps accumulate while the window is below the
limit; the call that would exceed it is denied and waits until the oldest
windowed timestamp expires: running `runCalls` from a non-empty granted
prefix whose head is the first windowed request, with exactly enough
remaining calls to reach `N + 1` in-window requests, yields zero waits
followed by the final wait `W - (lastCall - firstCall)`. -/
theorem runCalls_fill (N : Nat) (W : ℚ) :
    ∀ (ts es : List ℚ) (t0 : ℚ),
      es.head? = some t0 →
      es.length + ts.length = N + 1 →
      (∀ x ∈ es ++ ts, ∀ y ∈ es ++ ts, y - x < W) →
      ts ≠ [] →
      (runCalls N W es ts).1
        = List.replicate (ts.length - 1) 0 ++ [W - (ts.getLastD 0 - t0)] := by
  intro ts
  induction ts with
  | nil => intro es t0 _ _ _ hne; exact absurd rfl hne
  | cons now rest ih =>
      intro es t0 hhead hlen hwin _
      have hesne : es ≠ [] := by intro h; rw [h] at hhead; cases hhead
      have hlive : liveEntries W now es = es := by
        apply liveEntries_eq_self
        intro e he
        have hx := hwin e (List.mem_append_left _ he) now (by simp)
        linarith
      rcases Decidable.em (rest = []) with hrest | hrest
      · subst hrest
        have hlenN : es.length = N := by simp at hlen; omega
        have hhit : limiterHit N W now es = (false, es) := by
          unfold limiterHit
          rw [hlive]
          simp [hlenN]
        obtain ⟨tail, htail⟩ : ∃ tail, es = t0 :: tail := by
          cases es with
          | nil => cases hhead
          | cons a t => simp at hhead; exact ⟨t, by rw [hhead]⟩
        have hreset : resetTime W now es = t0 + W := by
          unfold resetTime
          rw [hlive, htail]
        have hstep : rateLimitedCall N W es now = (t0 + W - now, es) := by
          unfold rateLimitedCall
          rw [hhit]
          show (resetTime W now es - now, es) = (t0 + W - now, es)
          rw [hreset]
        rw [runCalls, hstep, runCalls]
        simp
        ring
      · have hlt : es.length < N := by
          have : rest.length ≠ 0 := fun h0 => hrest (List.length_eq_zero.mp h0)
          simp at hlen
          omega
        have hhit : limiterHit N W now es = (true, es ++ [now]) := by
          unfold limiterHit
          rw [hlive]
          simp [hlt]
        have hstep : rateLimitedCall N W es now = (0, es ++ [now]) := by
          unfold rateLimitedCall
          rw [hhit]
        have hhead2 : (es ++ [now]).head? = some t0 := by
          cases es with
          | nil => cases hhead
          | cons a t => simpa using hhead
        have hrec := ih (es ++ [now]) t0 hhead2
          (by simp at hlen ⊢; omega)
          (by
            intro x hx y hy
            apply hwin <;> simp at hx hy ⊢ <;> tauto)
          hrest
        rw [runCalls, hstep, hrec]
        have hgl : rest.getLastD now = rest.getLastD 0 := by
          rw [List.getLastD_eq_getLast?, List.getLastD_eq_getLast?,
            List.getLast?_eq_getLast rest hrest]
          rfl
        have hrl : rest.length = (rest.length - 1) + 1 :=
          (Nat.succ_pred_eq_of_pos (List.length_pos.mpr hrest)).symm
        simp only [List.length_cons, List.getLastD_cons, hgl, Nat.add_sub_cancel]
        rw [hrl, List.replicate_succ]
        simp

/-- C2: with a limit of `N` requests per window `W`, a run of `N + 1`
calls all inside one window is granted without waiting for the first `N`
calls; the `(N + 1)`-th call is suspended for exactly
`W - (now - timestamp of the first windowed request)` — the remaining
time until the oldest request in the window expires — a strictly
positive duration, and the request is still performed afterwards (one
wait entry per performed call). -/
theorem claim_C2_rate_limiter_wait :
    ∀ (N : Nat) (W : ℚ) (t : ℚ) (ts : List ℚ),
      0 < N →
      (t :: ts).length = N + 1 →
      (∀ x ∈ t :: ts, ∀ y ∈ t :: ts, y - x < W) →
      (runCalls N W [] (t :: ts)).1
          = List.replicate N 0 ++ [W - ((t :: ts).getLastD 0 - t)]
        ∧ 0 < W - ((t :: ts).getLastD 0 - t)
        ∧ (runCalls N W [] (t :: ts)).1.length = N + 1 := by
  intro N W t ts hN hlen hwin
  have hts : ts ≠ [] := by
    intro h
    rw [h] at hlen
    simp at hlen
    omega
  have hhit : limiterHit N W t [] = (true, [t]) := by
    unfold limiterHit liveEntries
    simp [hN]
  have hstep : rateLimitedCall N W [] t = (0, [t]) := by
    unfold rateLimitedCall
    rw [hhit]
  have hlen2 : ts.length = N := by simp at hlen; omega
  have hrec := runCalls_fill N W ts [t] t rfl (by simp [hlen2]; omega) hwin hts
  have hgl : ts.getLastD t = ts.getLastD 0 := by
    rw [List.getLastD_eq_getLast?, List.getLastD_eq_getLast?,
      List.getLast?_eq_getLast ts hts]
    rfl
  have hmain : (runCalls N W [] (t :: ts)).1
      = List.replicate N 0 ++ [W - ((t :: ts).getLastD 0 - t)] := by
    rw [runCalls, hstep, hrec]
    simp only [List.getLastD_cons, hgl, hlen2]
    have hN2 : N = (N - 1) + 1 := (Nat.succ_pred_eq_of_pos hN).symm
    rw [hN2, List.replicate_succ]
    simp
  refine ⟨hmain, ?_, ?_⟩
  · have hlast : (t :: ts).getLastD 0 ∈ t :: ts := by
      rw [List.getLastD_eq_getLast?, List.getLast?_eq_getLast _ (List.cons_ne_nil t ts)]
      exact List.getLast_mem _
    have := hwin t (by simp) ((t :: ts).getLastD 0) hlast
    linarith
  · rw [hmain]
    simp

/-- Witness for C2: limit 2 per window 1, calls at 0, 1/2 and 3/4; the
third call waits 1 − (3/4 − 0) = 1/4 and all three requests are
performed. -/
theorem claim_C2_witness :
    (runCalls 2 1 [] [0, 1/2, 3/4]).1
        = List.replicate 2 0 ++ [1 - (([0, 1/2, 3/4] : List ℚ).getLastD 0 - 0)]
      ∧ 0 < 1 - (([0, 1/2, 3/4] : List ℚ).getLastD 0 - 0)
      ∧ (runCalls 2 1 [] ([0, 1/2, 3/4] : List ℚ)).1.length = 2 + 1 :=
  claim_C2_rate_limiter_wait 2 1 0 [1/2, 3/4] (by norm_num) (by norm_num)
    (by
      intro x hx y hy
      fin_cases hx <;> fin_cases hy <;> norm_num)

/-- ASCII lowercasing is idempotent. -/
theorem asciiLowerChar_idem (c : Char) :
    asciiLowerChar (asciiLowerChar c) = asciiLowerChar c := by
  by_cases h : 65 ≤ c.toNat ∧ c.toNat ≤ 90
  · have hv : (c.toNat + 32).isValidChar := Or.inl (by omega)
    have ht : (Char.ofNat (c.toNat + 32)).toNat = c.toNat + 32 := by
      rw [Char.ofNat, dif_pos hv]
      simp [Char.ofNatAux, Char.toNat, UInt32.toNat, BitVec.toNat_ofNatLt]
    have h1 : asciiLowerChar c = Char.ofNat (c.toNat + 32) := by
      unfold asciiLowerChar
      rw [if_pos h]
    have h2 : asciiLowerChar (Char.ofNat (c.toNat + 32)) = Char.ofNat (c.toNat + 32) := by
      unfold asciiLowerChar
      rw [if_neg (by rw [ht]; omega)]
    rw [h1, h2]
  · have h1 : asciiLowerChar c = c := by
      unfold asciiLowerChar
      rw [if_neg h]
    rw [h1, h1]

/-- The initials collapse only deletes characters. -/
theorem collapseInitials_sub : ∀ l : List Char, (collapseInitials l).Sublist l := by
  intro l
  induction l using collapseInitials.induct with
  | case1 a s b rest hg ih =>
      rw [collapseInitials.eq_1, if_pos hg]
      exact ((((ih.cons₂ '.').cons₂ b).cons s).cons₂ '.').cons₂ a
  | case2 a s b rest hg ih =>
      rw [collapseInitials.eq_1, if_neg hg]
      exact ih.cons₂ a
  | case3 c rest hshape ih =>
      rw [collapseInitials.eq_2 c rest hshape]
      exact ih.cons₂ c
  | case4 =>
      rw [collapseInitials.eq_3]

/-- A list with no remaining match of the initials pattern is left
unchanged by the collapse. -/
theorem collapseInitials_of_no_pattern :
    ∀ l : List Char, hasInitialsPattern l = false → collapseInitials l = l := by
  intro l
  induction l using collapseInitials.induct with
  | case1 a s b rest hg ih =>
      intro h
      exfalso
      rw [hasInitialsPattern] at h
      rcases hg with ⟨hw1, hs1, hw2⟩
      rw [hw1, hs1, hw2] at h
      simp at h
  | case2 a s b rest hg ih =>
      intro h
      rw [hasInitialsPattern] at h
      simp only [Bool.or_eq_false_iff] at h
      rw [collapseInitials.eq_1, if_neg hg, ih h.2]
  | case3 c rest hshape ih =>
      intro h
      rw [hasInitialsPattern.eq_2 c rest hshape] at h
      rw [collapseInitials.eq_2 c rest hshape, ih h]
  | case4 =>
      intro _
      rw [collapseInitials.eq_3]

/-- Membership survives stripping. -/
theorem mem_of_mem_pyStripChars (c : Char) (l : List Char)
    (h : c ∈ pyStripChars l) : c ∈ l :=
  (List.dropWhile_sublist isPySpace).subset
    ((List.rdropWhile_prefix isPySpace (l.dropWhile isPySpace)).sublist.subset h)

/-- Membership survives the `!`/`?` removal. -/
theorem mem_of_mem_removeBangQmark (c : Char) (l : List Char)
    (h : c ∈ removeBangQmark l) : c ∈ l :=
  List.mem_of_mem_filter h

/-- Mapping a function that fixes every member is the identity. -/
theorem map_eq_self_of_fixed (f : Char → Char) :
    ∀ l : List Char, (∀ c ∈ l, f c = c) → l.map f = l := by
  intro l
  induction l with
  | nil => intro _; rfl
  | cons a t ih =>
      intro h
      rw [List.map_cons, h a (by simp), ih (fun c hc => h c (by simp [hc]))]

/-- `normalizeChars` over the ASCII model reduces to lowercasing,
initials collapse, `!`/`?` removal and strip. -/
theorem normalizeChars_ascii (l : List Char) :
    normalizeChars asciiUnicode l
      = pyStripChars (removeBangQmark (collapseInitials (l.map asciiLowerChar))) := by
  unfold normalizeChars asciiUnicode
  simp

/-- C6 counterexample: the normalization is not idempotent — the
non-overlapping initials regex collapses `"a. b. c."` to `"a.b. c."` on
the first pass and to `"a.b.c."` only on a second pass. -/
theorem claim_C6_counterexample :
    normalizeInput asciiUnicode (some (normalizeInput asciiUnicode (some "a. b. c.")))
      ≠ normalizeInput asciiUnicode (some "a. b. c.") := by decide

/-- Character-level idempotence of the ASCII normalization on inputs
whose normalized form has no remaining initials match. -/
theorem normalizeChars_ascii_idem (d : List Char)
    (h : hasInitialsPattern (normalizeChars asciiUnicode d) = false) :
    normalizeChars asciiUnicode (normalizeChars asciiUnicode d)
      = normalizeChars asciiUnicode d := by
  have hexp : normalizeChars asciiUnicode d
      = pyStripChars (removeBangQmark (collapseInitials (d.map asciiLowerChar))) :=
    normalizeChars_ascii d
  set u := normalizeChars asciiUnicode d with hudef
  have hmemu : ∀ c ∈ u, c ∈ d.map asciiLowerChar := by
    intro c hc
    rw [hexp] at hc
    exact (collapseInitials_sub _).subset
      (mem_of_mem_removeBangQmark c _ (mem_of_mem_pyStripChars c _ hc))
  have hmap : u.map asciiLowerChar = u := by
    apply map_eq_self_of_fixed
    intro c hc
    obtain ⟨e, _, rfl⟩ := List.mem_map.mp (hmemu c hc)
    exact asciiLowerChar_idem e
  have hcoll : collapseInitials u = u := collapseInitials_of_no_pattern u h
  have hbang : removeBangQmark u = u := by
    apply List.filter_eq_self.mpr
    intro c hc
    have hc2 : c ∈ removeBangQmark (collapseInitials (d.map asciiLowerChar)) := by
      rw [hexp] at hc
      exact mem_of_mem_pyStripChars c _ hc
    have := List.of_mem_filter hc2
    simpa using this
  have hstrip : pyStripChars u = u := by
    rw [hexp, pyStripChars_idem]
  rw [normalizeChars_ascii, hmap, hcoll, hbang, hstrip]

/-- C6 amended: on the ASCII fragment, normalization is idempotent for
every string whose normalized form contains no remaining match of the
initials pattern (word char, dot, whitespace, word char, dot); in general
a second application can collapse further initial pairs. -/
theorem claim_C6_amended_idempotent (s : String)
    (h : hasInitialsPattern (normalizeInput asciiUnicode (some s)).data = false) :
    normalizeInput asciiUnicode (some (normalizeInput asciiUnicode (some s)))
      = normalizeInput asciiUnicode (some s) :=
  congrArg String.mk (normalizeChars_ascii_idem s.data h)

/-- Witness for C6 amended: a normalized string without a remaining
initials match is a fixed point of a second normalization. -/
theorem claim_C6_witness :
    hasInitialsPattern (normalizeInput asciiUnicode (some "Hello! J. R. Tolkien?")).data
        = false
    ∧ normalizeInput asciiUnicode
        (some (normalizeInput asciiUnicode (some "Hello! J. R. Tolkien?")))
      = normalizeInput asciiUnicode (some "Hello! J. R. Tolkien?") :=
  ⟨by decide, claim_C6_amended_idempotent "Hello! J. R. Tolkien?" (by decide)⟩

end Books
